import Mathlib

/-!
Verification of the `geog-312` rioxarray tutorial notebook
(`src/book/geospatial/rioxarray.ipynb`).

The notebook is a linear sequence of Python statements that call external
geospatial libraries (rioxarray, xarray, geopandas, matplotlib).  We embed
the code cells as a small Python-statement AST (`Expr` / `Stmt`), transcribe
every statement of every code cell in order into `notebook`, and give the
statement list three semantics:

* a symbolic big-step semantics (`run`) over an environment binding
  variables to closed symbolic terms, used for the purity / no-mutation
  claims;
* an error-propagating semantics (`runE`) in `Except`, parameterised by an
  oracle that decides which external calls fail, used for the
  error-handling claim;
* an effect-collecting semantics (`runEffects`) that classifies every
  external call performed, used for the external-interface claims.

Two external library behaviours that implicit claims depend on are modelled
separately (`rioReproject`, `selSliceDesc`), each documented at its
definition.
-/

namespace Geog312

/-- Python expressions, as they occur in the code cells of the notebook.
Calls have fixed arity (the notebook needs arities 0 to 4); keyword
arguments are wrapped in `kw`, a `*xs` argument in `starArg`. -/
inductive Expr where
  | var : String → Expr
  | strLit : String → Expr
  | numLit : ℚ → Expr
  | boolLit : Bool → Expr
  | pair : Expr → Expr → Expr
  | list3 : Expr → Expr → Expr → Expr
  | list4 : Expr → Expr → Expr → Expr → Expr
  | attr : Expr → String → Expr
  | call0 : Expr → Expr
  | call1 : Expr → Expr → Expr
  | call2 : Expr → Expr → Expr → Expr
  | call3 : Expr → Expr → Expr → Expr → Expr
  | call4 : Expr → Expr → Expr → Expr → Expr → Expr
  | kw : String → Expr → Expr
  | starArg : Expr → Expr
  | sliceE : Expr → Expr → Expr
  deriving DecidableEq

/-- Python statements, as they occur in the code cells of the notebook.
`importS module alias` is `import module as alias`; `assign2` is tuple
unpacking `a, b = e`.  The constructors after `exprS` (conditionals,
`try`/`except`, `raise`, `def`, `async def`) never occur in the notebook;
they are present so that the absence of error handling, of repository-owned
functions and of asynchrony are contentful statements. -/
inductive Stmt where
  | importS : String → String → Stmt
  | assign : String → Expr → Stmt
  | assign2 : String → String → Expr → Stmt
  | exprS : Expr → Stmt
  | ifS : Expr → Stmt → Stmt → Stmt
  | tryExceptS : Stmt → Stmt → Stmt
  | raiseS : Expr → Stmt
  | defS : String → Stmt → Stmt
  | asyncDefS : String → Stmt → Stmt
  deriving DecidableEq

/-- URL of the raster loaded by the notebook (cell `url = ...`). -/
def tifUrl : String :=
  "https://github.com/opengeos/datasets/releases/download/raster/LC09_039035_20240708_90m.tif"

/-- URL of the vector boundary file loaded by the notebook
(cell `geojson_path = ...`). -/
def vecUrl : String :=
  "https://github.com/opengeos/datasets/releases/download/places/las_vegas_bounds_utm.geojson"

open Expr Stmt

/-- Every statement of every code cell of
`src/book/geospatial/rioxarray.ipynb`, in cell order. -/
def notebook : List Stmt := [
  -- cell: imports and xarray options
  importS "rioxarray" "rioxarray",
  importS "xarray" "xr",
  importS "matplotlib.pyplot" "plt",
  exprS (call2 (attr (var "xr") "set_options")
    (kw "keep_attrs" (boolLit true)) (kw "display_expand_data" (boolLit false))),
  -- cell: load a raster dataset using rioxarray
  assign "url" (strLit tifUrl),
  assign "data" (call1 (attr (var "rioxarray") "open_rasterio") (var "url")),
  exprS (var "data"),
  -- cells: inspect dimensions, coordinates, attributes
  exprS (call1 (var "print") (attr (var "data") "dims")),
  exprS (call1 (var "print") (attr (var "data") "coords")),
  exprS (call1 (var "print") (attr (var "data") "attrs")),
  -- cells: check CRS and affine transform
  exprS (call1 (var "print") (attr (attr (var "data") "rio") "crs")),
  exprS (call1 (var "print") (call0 (attr (attr (var "data") "rio") "transform"))),
  -- cell: reproject to WGS84
  assign "data_reprojected"
    (call1 (attr (attr (var "data") "rio") "reproject") (strLit "EPSG:4326")),
  exprS (call1 (var "print") (attr (attr (var "data_reprojected") "rio") "crs")),
  -- cell: clip to a bounding box
  assign "bbox" (list4 (numLit (-115.391)) (numLit 35.982)
    (numLit (-114.988)) (numLit 36.425)),
  assign "clipped_data"
    (call1 (attr (attr (var "data_reprojected") "rio") "clip_box") (starArg (var "bbox"))),
  exprS (attr (var "clipped_data") "shape"),
  -- cell: clip with a geojson boundary
  importS "geopandas" "gpd",
  assign "geojson_path" (strLit vecUrl),
  assign "bounds" (call1 (attr (var "gpd") "read_file") (var "geojson_path")),
  assign "clipped_data2"
    (call2 (attr (attr (var "data") "rio") "clip")
      (attr (var "bounds") "geometry") (attr (var "bounds") "crs")),
  exprS (attr (var "clipped_data2") "shape"),
  -- cell: resample to 1km resolution
  assign "resampled_data"
    (call2 (attr (attr (var "data") "rio") "reproject")
      (attr (attr (var "data") "rio") "crs")
      (kw "resolution" (pair (numLit 1000) (numLit 1000)))),
  exprS (attr (var "resampled_data") "shape"),
  -- cell: extract a spatial subset
  assign "min_x" (numLit (-115.391)),
  assign "max_x" (numLit (-114.988)),
  assign "min_y" (numLit 35.982),
  assign "max_y" (numLit 36.425),
  assign "subset"
    (call2 (attr (var "data_reprojected") "sel")
      (kw "x" (sliceE (var "min_x") (var "max_x")))
      (kw "y" (sliceE (var "max_y") (var "min_y")))),
  exprS (attr (var "subset") "shape"),
  -- cell: plot the reprojected raster
  exprS (call1 (attr (var "plt") "figure") (kw "figsize" (pair (numLit 8) (numLit 8)))),
  exprS (call2
    (attr (attr (call1 (attr (var "data_reprojected") "sel")
      (kw "band" (list3 (numLit 4) (numLit 3) (numLit 2)))) "plot") "imshow")
    (kw "vmin" (numLit 0)) (kw "vmax" (numLit 0.3))),
  exprS (call1 (attr (var "plt") "title") (strLit "Landsat Image covering Las Vegas")),
  exprS (call1 (attr (var "plt") "xlabel") (strLit "Longitude")),
  exprS (call1 (attr (var "plt") "ylabel") (strLit "Latitude")),
  exprS (call0 (attr (var "plt") "show")),
  -- cell: plot the clipped raster
  exprS (call1 (attr (var "plt") "figure") (kw "figsize" (pair (numLit 8) (numLit 8)))),
  exprS (call2
    (attr (attr (call1 (attr (var "clipped_data") "sel")
      (kw "band" (list3 (numLit 4) (numLit 3) (numLit 2)))) "plot") "imshow")
    (kw "vmin" (numLit 0)) (kw "vmax" (numLit 0.3))),
  exprS (call1 (attr (var "plt") "title") (strLit "Landsat Image covering Las Vegas")),
  exprS (call1 (attr (var "plt") "xlabel") (strLit "Longitude")),
  exprS (call1 (attr (var "plt") "ylabel") (strLit "Latitude")),
  exprS (call0 (attr (var "plt") "show")),
  -- cell: plot raster with the vector overlay
  assign2 "fig" "ax"
    (call1 (attr (var "plt") "subplots") (kw "figsize" (pair (numLit 8) (numLit 8)))),
  exprS (call4
    (attr (attr (call1 (attr (var "data") "sel") (kw "band" (numLit 4))) "plot") "imshow")
    (kw "ax" (var "ax")) (kw "vmin" (numLit 0)) (kw "vmax" (numLit 0.4))
    (kw "cmap" (strLit "gray"))),
  exprS (call2 (attr (attr (var "bounds") "boundary") "plot")
    (kw "ax" (var "ax")) (kw "color" (strLit "red"))),
  exprS (call1 (attr (var "plt") "title") (strLit "Raster with Vector Overlay")),
  exprS (call0 (attr (var "plt") "show")),
  -- cell: save the DataArray as a GeoTIFF file
  exprS (call1 (attr (attr (var "data") "rio") "to_raster") (strLit "output_raster.tif"))]

/-! ### Symbolic big-step semantics -/

/-- Environments bind variable names to closed symbolic terms. -/
abbrev Env := List (String × Expr)

/-- Association lookup in an environment (the most recent binding wins). -/
def lookupVar (env : Env) (n : String) : Option Expr :=
  match env with
  | [] => none
  | (m, v) :: rest => if m = n then some v else lookupVar rest n

/-- Symbolic evaluation: replace every variable by its bound term.  A name
with no binding (a module alias) stands for itself.  External calls are
represented by their own call term: the libraries return fresh objects, so
the call term itself is the resulting value. -/
def eval (env : Env) : Expr → Expr
  | var n => (lookupVar env n).getD (var n)
  | strLit s => strLit s
  | numLit q => numLit q
  | boolLit b => boolLit b
  | pair a b => pair (eval env a) (eval env b)
  | list3 a b c => list3 (eval env a) (eval env b) (eval env c)
  | list4 a b c d => list4 (eval env a) (eval env b) (eval env c) (eval env d)
  | attr e n => attr (eval env e) n
  | call0 f => call0 (eval env f)
  | call1 f a => call1 (eval env f) (eval env a)
  | call2 f a b => call2 (eval env f) (eval env a) (eval env b)
  | call3 f a b c => call3 (eval env f) (eval env a) (eval env b) (eval env c)
  | call4 f a b c d =>
      call4 (eval env f) (eval env a) (eval env b) (eval env c) (eval env d)
  | kw n e => kw n (eval env e)
  | starArg e => starArg (eval env e)
  | sliceE a b => sliceE (eval env a) (eval env b)

/-- One execution step.  An assignment extends the environment with a new
binding; no statement form modifies an existing bound value.  Statement
forms absent from the notebook leave the environment unchanged. -/
def step (env : Env) : Stmt → Env
  | assign n e => (n, eval env e) :: env
  | assign2 n1 n2 e =>
      (n2, attr (eval env e) "_1") :: (n1, attr (eval env e) "_0") :: env
  | _ => env

/-- Run a statement list from an environment. -/
def run (env : Env) : List Stmt → Env
  | [] => env
  | s :: rest => run (step env s) rest

/-- Left-hand-side names of all assignments, in order. -/
def assignedNames (stmts : List Stmt) : List String :=
  stmts.flatMap fun s =>
    match s with
    | assign n _ => [n]
    | assign2 n1 n2 _ => [n1, n2]
    | _ => []

/-- The symbolic value of the loaded dataset `data`. -/
def dataVal : Expr :=
  call1 (attr (var "rioxarray") "open_rasterio") (strLit tifUrl)

/-- The symbolic value of `data_reprojected`. -/
def dataReprojectedVal : Expr :=
  call1 (attr (attr dataVal "rio") "reproject") (strLit "EPSG:4326")

/-! ### Error-propagating semantics -/

/-- An oracle deciding which external calls fail: it receives the fully
evaluated call term and returns `some msg` when the underlying library
raises an error described by `msg`. -/
abbrev FailOracle := Expr → Option String

/-- Evaluation in `Except`: like `eval`, but every call site consults the
oracle; a failing call aborts evaluation with the library error. -/
def evalE (o : FailOracle) (env : Env) : Expr → Except String Expr
  | var n => .ok ((lookupVar env n).getD (var n))
  | strLit s => .ok (strLit s)
  | numLit q => .ok (numLit q)
  | boolLit b => .ok (boolLit b)
  | pair a b => do pure (pair (← evalE o env a) (← evalE o env b))
  | list3 a b c =>
      do pure (list3 (← evalE o env a) (← evalE o env b) (← evalE o env c))
  | list4 a b c d =>
      do pure (list4 (← evalE o env a) (← evalE o env b) (← evalE o env c)
        (← evalE o env d))
  | attr e n => do pure (attr (← evalE o env e) n)
  | call0 f => do
      let t := call0 (← evalE o env f)
      match o t with
      | some msg => .error msg
      | none => pure t
  | call1 f a => do
      let t := call1 (← evalE o env f) (← evalE o env a)
      match o t with
      | some msg => .error msg
      | none => pure t
  | call2 f a b => do
      let t := call2 (← evalE o env f) (← evalE o env a) (← evalE o env b)
      match o t with
      | some msg => .error msg
      | none => pure t
  | call3 f a b c => do
      let t := call3 (← evalE o env f) (← evalE o env a) (← evalE o env b)
        (← evalE o env c)
      match o t with
      | some msg => .error msg
      | none => pure t
  | call4 f a b c d => do
      let t := call4 (← evalE o env f) (← evalE o env a) (← evalE o env b)
        (← evalE o env c) (← evalE o env d)
      match o t with
      | some msg => .error msg
      | none => pure t
  | kw n e => do pure (kw n (← evalE o env e))
  | starArg e => do pure (starArg (← evalE o env e))
  | sliceE a b => do pure (sliceE (← evalE o env a) (← evalE o env b))

/-- One execution step in `Except`.  A `try`/`except` statement would
recover from an error in its body by running the handler; no such statement
occurs in the notebook. -/
def stepE (o : FailOracle) (env : Env) : Stmt → Except String Env
  | importS _ _ => .ok env
  | assign n e =>
      match evalE o env e with
      | .error msg => .error msg
      | .ok v => .ok ((n, v) :: env)
  | assign2 n1 n2 e =>
      match evalE o env e with
      | .error msg => .error msg
      | .ok v => .ok ((n2, attr v "_1") :: (n1, attr v "_0") :: env)
  | exprS e =>
      match evalE o env e with
      | .error msg => .error msg
      | .ok _ => .ok env
  | ifS c t e =>
      match evalE o env c with
      | .error msg => .error msg
      | .ok (boolLit true) => stepE o env t
      | .ok _ => stepE o env e
  | tryExceptS body handler =>
      match stepE o env body with
      | .error _ => stepE o env handler
      | .ok env2 => .ok env2
  | raiseS _ => .error "raised"
  | defS _ _ => .ok env
  | asyncDefS _ _ => .ok env

/-- Run a statement list in `Except`: the first error aborts the run. -/
def runE (o : FailOracle) (env : Env) : List Stmt → Except String Env
  | [] => .ok env
  | s :: rest =>
      match stepE o env s with
      | .error msg => .error msg
      | .ok env2 => runE o env2 rest

/-! ### Effect-collecting semantics -/

/-- The kinds of interaction with the outside world.  `unknownEffect` marks
a call that the classification below does not recognise; the external-
interface claim asserts that the notebook produces none. -/
inductive Effect where
  | readRemoteRaster : String → Effect
  | readRemoteVector : String → Effect
  | writeLocalRaster : String → Effect
  | render : Effect
  | unknownEffect : String → Effect
  deriving DecidableEq

/-- Does the first character list begin with the second? -/
def charsBeginWith : List Char → List Char → Bool
  | _, [] => true
  | [], _ :: _ => false
  | c :: cs, d :: ds => c == d && charsBeginWith cs ds

/-- Does the string begin with the given prefix?  (Same meaning as the
standard library test, stated over the character lists so that it
evaluates inside proofs.) -/
def strBeginsWith (s p : String) : Bool := charsBeginWith s.data p.data

/-- Classify one external call, given the function part of the call term
and its first evaluated argument (when any).  Pure in-memory transforms
(`rio.reproject`, `rio.clip_box`, `rio.clip`, `sel`, `rio.transform`,
`xr.set_options`) produce no effect; `rioxarray.open_rasterio` and
`gpd.read_file` on an `https` URL read remote files; `rio.to_raster` on a
non-URL path writes a local file; `print`, every `plt` call, `.plot.imshow`
and `.boundary.plot` render to the notebook display surface. -/
def callEffects (f : Expr) (a : Option Expr) : List Effect :=
  match f, a with
  | attr (var "rioxarray") "open_rasterio", some (strLit u) =>
      if strBeginsWith u "https://" then [.readRemoteRaster u]
      else [.unknownEffect "open_rasterio"]
  | attr (var "rioxarray") "open_rasterio", _ => [.unknownEffect "open_rasterio"]
  | attr (var "gpd") "read_file", some (strLit u) =>
      if strBeginsWith u "https://" then [.readRemoteVector u]
      else [.unknownEffect "read_file"]
  | attr (var "gpd") "read_file", _ => [.unknownEffect "read_file"]
  | attr (attr _ "rio") "to_raster", some (strLit p) =>
      if strBeginsWith p "https://" then [.unknownEffect "to_raster"]
      else [.writeLocalRaster p]
  | attr (attr _ "rio") "to_raster", _ => [.unknownEffect "to_raster"]
  | var "print", _ => [.render]
  | attr (var "plt") _, _ => [.render]
  | attr (attr _ "plot") "imshow", _ => [.render]
  | attr (attr _ "boundary") "plot", _ => [.render]
  | attr (var "xr") "set_options", _ => []
  | attr (attr _ "rio") "reproject", _ => []
  | attr (attr _ "rio") "clip_box", _ => []
  | attr (attr _ "rio") "clip", _ => []
  | attr (attr _ "rio") "transform", _ => []
  | attr _ "sel", _ => []
  | _, _ => [.unknownEffect "call"]

/-- The effects of the syntactic call sites of one evaluated statement
expression: the expression is traversed structurally, and every call node
is classified with its evaluated arguments. -/
def effectsOf (env : Env) : Expr → List Effect
  | var _ => []
  | strLit _ => []
  | numLit _ => []
  | boolLit _ => []
  | pair a b => effectsOf env a ++ effectsOf env b
  | list3 a b c => effectsOf env a ++ effectsOf env b ++ effectsOf env c
  | list4 a b c d =>
      effectsOf env a ++ effectsOf env b ++ effectsOf env c ++ effectsOf env d
  | attr e _ => effectsOf env e
  | call0 f => effectsOf env f ++ callEffects f none
  | call1 f a => effectsOf env f ++ effectsOf env a ++ callEffects f (some (eval env a))
  | call2 f a b =>
      effectsOf env f ++ effectsOf env a ++ effectsOf env b
        ++ callEffects f (some (eval env a))
  | call3 f a b c =>
      effectsOf env f ++ effectsOf env a ++ effectsOf env b ++ effectsOf env c
        ++ callEffects f (some (eval env a))
  | call4 f a b c d =>
      effectsOf env f ++ effectsOf env a ++ effectsOf env b ++ effectsOf env c
        ++ effectsOf env d ++ callEffects f (some (eval env a))
  | kw _ e => effectsOf env e
  | starArg e => effectsOf env e
  | sliceE a b => effectsOf env a ++ effectsOf env b

/-- The effects of one statement.  A bare expression statement additionally
renders its value in the notebook cell output area. -/
def stmtEffects (env : Env) : Stmt → List Effect
  | assign _ e => effectsOf env e
  | assign2 _ _ e => effectsOf env e
  | exprS e => effectsOf env e ++ [.render]
  | _ => []

/-- The effects of a statement list, in execution order. -/
def runEffects (env : Env) : List Stmt → List Effect
  | [] => []
  | s :: rest => stmtEffects env s ++ runEffects (step env s) rest

/-- Every effect the notebook performs, in order. -/
def notebookEffects : List Effect := runEffects [] notebook

/-! ### Syntactic classification of statements -/

/-- The function part of a call expression, when the expression is a call. -/
def callFn : Expr → Option Expr
  | call0 f => some f
  | call1 f _ => some f
  | call2 f _ _ => some f
  | call3 f _ _ _ => some f
  | call4 f _ _ _ _ => some f
  | _ => none

/-- True when some subexpression satisfies the predicate. -/
def anyExpr (p : Expr → Bool) : Expr → Bool
  | e@(pair a b) => p e || anyExpr p a || anyExpr p b
  | e@(list3 a b c) => p e || anyExpr p a || anyExpr p b || anyExpr p c
  | e@(list4 a b c d) =>
      p e || anyExpr p a || anyExpr p b || anyExpr p c || anyExpr p d
  | e@(attr a _) => p e || anyExpr p a
  | e@(call0 f) => p e || anyExpr p f
  | e@(call1 f a) => p e || anyExpr p f || anyExpr p a
  | e@(call2 f a b) => p e || anyExpr p f || anyExpr p a || anyExpr p b
  | e@(call3 f a b c) =>
      p e || anyExpr p f || anyExpr p a || anyExpr p b || anyExpr p c
  | e@(call4 f a b c d) =>
      p e || anyExpr p f || anyExpr p a || anyExpr p b || anyExpr p c || anyExpr p d
  | e@(kw _ a) => p e || anyExpr p a
  | e@(starArg a) => p e || anyExpr p a
  | e@(sliceE a b) => p e || anyExpr p a || anyExpr p b
  | e => p e

/-- True when some expression inside the statement satisfies the predicate. -/
def stmtAnyExpr (p : Expr → Bool) : Stmt → Bool
  | assign _ e => anyExpr p e
  | assign2 _ _ e => anyExpr p e
  | exprS e => anyExpr p e
  | ifS c t e => anyExpr p c || stmtAnyExpr p t || stmtAnyExpr p e
  | tryExceptS b h => stmtAnyExpr p b || stmtAnyExpr p h
  | raiseS e => anyExpr p e
  | defS _ b => stmtAnyExpr p b
  | asyncDefS _ b => stmtAnyExpr p b
  | importS _ _ => false

/-- A call to `rioxarray.open_rasterio` (loading). -/
def isLoadCall (e : Expr) : Bool :=
  match callFn e with
  | some (attr (var "rioxarray") "open_rasterio") => true
  | _ => false

/-- A call to a `rio.reproject` method (reprojection; with a `resolution`
keyword argument this is the resampling idiom). -/
def isReprojectCall (e : Expr) : Bool :=
  match callFn e with
  | some (attr (attr _ "rio") "reproject") => true
  | _ => false

/-- A `rio.reproject` call carrying a `resolution` keyword argument
(the resampling idiom used by the notebook). -/
def isResampleCall : Expr → Bool
  | call2 (attr (attr _ "rio") "reproject") _ (kw "resolution" _) => true
  | _ => false

/-- A call to `rio.clip_box` or `rio.clip` (clipping). -/
def isClipCall (e : Expr) : Bool :=
  match callFn e with
  | some (attr (attr _ "rio") "clip_box") => true
  | some (attr (attr _ "rio") "clip") => true
  | _ => false

/-- A call to `rio.to_raster` (exporting). -/
def isToRasterCall (e : Expr) : Bool :=
  match callFn e with
  | some (attr (attr _ "rio") "to_raster") => true
  | _ => false

/-- A call to a `matplotlib.pyplot` function. -/
def isPltCall (e : Expr) : Bool :=
  match callFn e with
  | some (attr (var "plt") _) => true
  | _ => false

/-- A `.plot.imshow` call. -/
def isImshowCall (e : Expr) : Bool :=
  match callFn e with
  | some (attr (attr _ "plot") "imshow") => true
  | _ => false

/-- A `.boundary.plot` call (geopandas overlay plotting). -/
def isBoundaryPlotCall (e : Expr) : Bool :=
  match callFn e with
  | some (attr (attr _ "boundary") "plot") => true
  | _ => false

/-- A statement that loads a raster. -/
def isLoadStmt : Stmt → Bool := stmtAnyExpr isLoadCall

/-- A statement that reprojects, clips or resamples
(the transform phase of the notebook). -/
def isTransformStmt : Stmt → Bool :=
  stmtAnyExpr fun e => isReprojectCall e || isClipCall e

/-- A statement that renders a plot or other display output via
matplotlib. -/
def isVisualizeStmt : Stmt → Bool :=
  stmtAnyExpr fun e => isImshowCall e || isPltCall e || isBoundaryPlotCall e

/-- A statement that exports a raster to disk. -/
def isExportStmt : Stmt → Bool := stmtAnyExpr isToRasterCall

/-- The metadata-inspection statements of the loaded raster `data`:
printing its dimensions, coordinates, attributes, CRS and affine
transform. -/
def inspectStmts : List Stmt := [
  exprS (call1 (var "print") (attr (var "data") "dims")),
  exprS (call1 (var "print") (attr (var "data") "coords")),
  exprS (call1 (var "print") (attr (var "data") "attrs")),
  exprS (call1 (var "print") (attr (attr (var "data") "rio") "crs")),
  exprS (call1 (var "print") (call0 (attr (attr (var "data") "rio") "transform")))]

/-- A statement inspecting the metadata of the loaded raster. -/
def isInspectStmt (s : Stmt) : Bool := inspectStmts.contains s

/-- Indices (execution positions) of the statements satisfying `p`. -/
def idxWhere (p : Stmt → Bool) (l : List Stmt) : List Nat :=
  (l.enum.filter fun x => p x.2).map fun x => x.1

/-- Every index of `xs` is smaller than every index of `ys`. -/
def allBefore (xs ys : List Nat) : Bool :=
  xs.all fun i => ys.all fun j => decide (i < j)

/-- A straight-line statement: an import, an assignment or a bare
expression.  The notebook consists exclusively of these; conditionals,
`try`/`except`, `raise` and (async) function definitions never occur. -/
def isStraightLine : Stmt → Bool
  | importS _ _ => true
  | assign _ _ => true
  | assign2 _ _ _ => true
  | exprS _ => true
  | _ => false

/-- An expression containing no call at all (a variable, a literal, an
attribute path, or keyword/star/slice/list wrappers around such). -/
def isCallFree : Expr → Bool
  | var _ => true
  | strLit _ => true
  | numLit _ => true
  | boolLit _ => true
  | pair a b => isCallFree a && isCallFree b
  | list3 a b c => isCallFree a && isCallFree b && isCallFree c
  | list4 a b c d => isCallFree a && isCallFree b && isCallFree c && isCallFree d
  | attr a _ => isCallFree a
  | kw _ a => isCallFree a
  | starArg a => isCallFree a
  | sliceE a b => isCallFree a && isCallFree b
  | _ => false

/-- An attribute path rooted at a plain name (e.g. `data.rio.reproject`). -/
def isAttrPath : Expr → Bool
  | var _ => true
  | attr a _ => isAttrPath a
  | _ => false

/-- A single direct call into an external library: the function is an
attribute path and every argument is call-free (variables, literals,
attribute accesses), so no further computation sits between the call and
its result. -/
def isDirectLibCall : Expr → Bool
  | call0 f => isAttrPath f
  | call1 f a => isAttrPath f && isCallFree a
  | call2 f a b => isAttrPath f && isCallFree a && isCallFree b
  | call3 f a b c => isAttrPath f && isCallFree a && isCallFree b && isCallFree c
  | call4 f a b c d =>
      isAttrPath f && isCallFree a && isCallFree b && isCallFree c && isCallFree d
  | _ => false

/-- The right-hand side of the (first) assignment to `n` in the list. -/
def rhsOf (stmts : List Stmt) (n : String) : Option Expr :=
  stmts.findSome? fun s =>
    match s with
    | assign m e => if m = n then some e else none
    | _ => none

/-- The modules imported by the statement list. -/
def importedModules (stmts : List Stmt) : List String :=
  stmts.filterMap fun s =>
    match s with
    | importS m _ => some m
    | _ => none

/-- The final name of a call target (`f` in `f(...)`, `m` in `x.m(...)`). -/
def headName : Expr → Option String
  | var n => some n
  | attr _ m => some m
  | _ => none

/-- The head names of every call node inside an expression. -/
def callHeads : Expr → List String
  | pair a b => callHeads a ++ callHeads b
  | list3 a b c => callHeads a ++ callHeads b ++ callHeads c
  | list4 a b c d => callHeads a ++ callHeads b ++ callHeads c ++ callHeads d
  | attr a _ => callHeads a
  | call0 f => (headName f).toList ++ callHeads f
  | call1 f a => (headName f).toList ++ callHeads f ++ callHeads a
  | call2 f a b => (headName f).toList ++ callHeads f ++ callHeads a ++ callHeads b
  | call3 f a b c =>
      (headName f).toList ++ callHeads f ++ callHeads a ++ callHeads b ++ callHeads c
  | call4 f a b c d =>
      (headName f).toList ++ callHeads f ++ callHeads a ++ callHeads b
        ++ callHeads c ++ callHeads d
  | kw _ a => callHeads a
  | starArg a => callHeads a
  | sliceE a b => callHeads a ++ callHeads b
  | _ => []

/-- The head names of every call node inside a statement. -/
def stmtCallHeads : Stmt → List String
  | assign _ e => callHeads e
  | assign2 _ _ e => callHeads e
  | exprS e => callHeads e
  | ifS c t e => callHeads c ++ stmtCallHeads t ++ stmtCallHeads e
  | tryExceptS b h => stmtCallHeads b ++ stmtCallHeads h
  | raiseS e => callHeads e
  | defS _ b => stmtCallHeads b
  | asyncDefS _ b => stmtCallHeads b
  | importS _ _ => []

/-- A statement containing an `async def` at any depth. -/
def usesAsync : Stmt → Bool
  | asyncDefS _ _ => true
  | ifS _ t e => usesAsync t || usesAsync e
  | tryExceptS b h => usesAsync b || usesAsync h
  | defS _ b => usesAsync b
  | _ => false

/-- Python modules providing threads, processes or asynchronous tasks. -/
def concurrencyModules : List String :=
  ["threading", "multiprocessing", "asyncio", "concurrent.futures", "_thread",
   "subprocess", "queue", "sched"]

/-- Library entry points that create threads, processes or asynchronous
tasks, or schedule or cancel them. -/
def concurrencyCallNames : List String :=
  ["Thread", "Process", "Pool", "ThreadPoolExecutor", "ProcessPoolExecutor",
   "submit", "create_task", "ensure_future", "gather", "as_completed",
   "map_async", "apply_async", "cancel", "start_new_thread"]

/-! ### Models of the two external library behaviours the implicit
claims depend on -/

/-- Modelled from the spec: the dataset state relevant to the external
rioxarray method `rio.reproject`, whose code is not part of this
repository: the coordinate reference system attached to a raster (absent
when the raster carries none) and its grid resolution. -/
structure RioDataset where
  crs : Option String
  resolution : ℚ × ℚ
  deriving DecidableEq

/-- Modelled from the spec: the external rioxarray method `rio.reproject`
per its documented contract.  It fails when the source dataset carries no
CRS; otherwise it returns a new dataset that carries exactly the requested
target CRS, with the requested grid resolution when one is given and a
grid derived from the source otherwise. -/
def rioReproject (d : RioDataset) (dst : String) (res : Option (ℚ × ℚ)) :
    Option RioDataset :=
  match d.crs with
  | none => none
  | some _ => some { crs := some dst, resolution := res.getD d.resolution }

/-- Modelled from the spec: label-based slice selection `.sel(y=slice(a, b))`
of xarray/pandas on a monotonically decreasing coordinate, whose code is
not part of this repository.  The selected rows are the contiguous block
that starts at the first label not greater than the slice start `a` and
ends before the first label smaller than the slice stop `b`. -/
def selSliceDesc (ys : List ℚ) (a b : ℚ) : List ℚ :=
  (ys.dropWhile fun y => decide (a < y)).takeWhile fun y => decide (b ≤ y)

/-! ### Helper lemmas -/

/-- Once a prefix of statements errors, appending further statements cannot
change the outcome: the first error aborts the whole run unchanged. -/
theorem runE_error_append (o : FailOracle) :
    ∀ (pre : List Stmt) (env : Env) (msg : String),
      runE o env pre = .error msg → ∀ post, runE o env (pre ++ post) = .error msg := by
  intro pre
  induction pre with
  | nil =>
    intro env msg h post
    simp [runE] at h
  | cons s rest ih =>
    intro env msg h post
    simp only [List.cons_append, runE] at h ⊢
    cases hs : stepE o env s with
    | error m => simp only [hs] at h ⊢; exact h
    | ok env2 => simp only [hs] at h ⊢; exact ih env2 msg h post

/-- On a strictly decreasing coordinate, slice selection from `a` down to
`b` returns exactly the labels lying between `b` and `a`. -/
theorem selSliceDesc_eq_filter (a b : ℚ) :
    ∀ ys : List ℚ, ys.Pairwise (· > ·) →
      selSliceDesc ys a b = ys.filter fun y => decide (b ≤ y) && decide (y ≤ a) := by
  intro ys
  induction ys with
  | nil => intro _; rfl
  | cons y ys ih =>
    intro h
    obtain ⟨hy, hys⟩ := List.pairwise_cons.mp h
    by_cases ha : a < y
    · have h1 : decide (a < y) = true := by simpa using ha
      have h2 : decide (y ≤ a) = false := by simp [not_le.mpr ha]
      simp only [selSliceDesc, List.dropWhile_cons, List.filter_cons, h1, h2,
        Bool.and_false, if_true, Bool.false_eq_true, if_false]
      simpa only [selSliceDesc] using ih hys
    · have h1 : decide (a < y) = false := by simp [ha]
      have hdrop : ys.dropWhile (fun y => decide (a < y)) = ys := by
        cases ys with
        | nil => rfl
        | cons z zs =>
          have hz : z < y := hy z (by simp)
          apply List.dropWhile_cons_of_neg
          simp only [decide_eq_true_eq, not_lt]
          exact le_of_lt (lt_of_lt_of_le hz (le_of_not_lt ha))
      by_cases hb : b ≤ y
      · have h3 : decide (b ≤ y) = true := by simpa using hb
        have h4 : decide (y ≤ a) = true := by simpa using le_of_not_lt ha
        simp only [selSliceDesc, List.dropWhile_cons, List.takeWhile_cons,
          List.filter_cons, h1, h3, h4, Bool.and_self, Bool.false_eq_true,
          if_false, if_true]
        have hys2 := ih hys
        simp only [selSliceDesc, hdrop] at hys2
        exact congrArg (List.cons y) hys2
      · have h3 : decide (b ≤ y) = false := by simp [hb]
        simp only [selSliceDesc, List.dropWhile_cons, List.takeWhile_cons,
          List.filter_cons, h1, h3, Bool.false_and, Bool.false_eq_true,
          if_false]
        symm
        rw [List.filter_eq_nil_iff]
        intro z hz
        have hzy : z < y := hy z hz
        have hbz : ¬ (b ≤ z) := fun hbz =>
          hb (le_of_lt (lt_of_le_of_lt hbz hzy))
        simp [hbz]

/-- On a strictly decreasing coordinate, slicing in ascending label order
selects nothing. -/
theorem selSliceDesc_reversed_empty (a b : ℚ) (hab : a < b) :
    ∀ ys : List ℚ, ys.Pairwise (· > ·) → selSliceDesc ys a b = [] := by
  intro ys h
  rw [selSliceDesc_eq_filter a b ys h, List.filter_eq_nil_iff]
  intro z _
  simp only [Bool.and_eq_true, decide_eq_true_eq, not_and]
  intro hbz hza
  linarith

/-! ### The claims -/

/-- C1: every geospatial operation of the notebook (reprojection, bounding
box clipping, geometry clipping, resampling) returns a new dataset value
bound to a fresh name and leaves its input dataset unchanged: `data` is
bound to the same value after the whole run as right after loading,
`data_reprojected` to the same value as right after reprojection, every
operation result differs from its input value, the reprojection result
still contains the untouched load value, and no variable of the notebook
is ever rebound. -/
theorem c1_operations_return_new_unmutated_values :
    lookupVar (run [] notebook) "data" = some dataVal
  ∧ lookupVar (run [] (notebook.take 6)) "data" = some dataVal
  ∧ lookupVar (run [] notebook) "data_reprojected" = some dataReprojectedVal
  ∧ lookupVar (run [] (notebook.take 13)) "data_reprojected" = some dataReprojectedVal
  ∧ dataReprojectedVal = call1 (attr (attr dataVal "rio") "reproject") (strLit "EPSG:4326")
  ∧ dataReprojectedVal ≠ dataVal
  ∧ lookupVar (run [] notebook) "clipped_data" ≠ some dataReprojectedVal
  ∧ lookupVar (run [] notebook) "clipped_data2" ≠ some dataVal
  ∧ lookupVar (run [] notebook) "resampled_data" ≠ some dataVal
  ∧ lookupVar (run [] notebook) "subset" ≠ some dataReprojectedVal
  ∧ (assignedNames notebook).Nodup := by decide

/-- C2: the notebook is straight-line code with no error catching,
validation or recovery construct, and under any oracle of library
failures, an error raised while running any prefix of the notebook
propagates unchanged to the outcome of the whole run. -/
theorem c2_errors_propagate_unhandled :
    notebook.all isStraightLine = true
  ∧ ∀ (o : FailOracle) (pre post : List Stmt) (msg : String),
      notebook = pre ++ post → runE o [] pre = .error msg →
      runE o [] notebook = .error msg := by
  refine ⟨by decide, ?_⟩
  intro o pre post msg hsplit herr
  rw [hsplit]
  exact runE_error_append o pre [] msg herr post

/-- An oracle under which the initial remote raster load raises. -/
def loadFailOracle : FailOracle := fun t =>
  if t = call1 (attr (var "rioxarray") "open_rasterio") (strLit tifUrl)
  then some "HTTPError" else none

/-- Witness for C2: when the load in the first six statements fails with
an HTTPError, the whole notebook run ends with exactly that error. -/
theorem c2_errors_propagate_unhandled_witness :
    runE loadFailOracle [] notebook = .error "HTTPError" :=
  c2_errors_propagate_unhandled.2 loadFailOracle (notebook.take 6) (notebook.drop 6)
    "HTTPError" (List.take_append_drop 6 notebook).symm rfl

set_option maxRecDepth 8192 in
/-- C3: the effects of the whole notebook run consist of exactly one
remote raster read (of the Landsat URL), exactly one remote vector read
(of the boundary URL), exactly one local raster write (of
`output_raster.tif`), and renderings to the display surface; every
performed effect is one of these four, so no other external input is read
and no other external output is produced. -/
theorem c3_exactly_four_effect_kinds :
    notebookEffects.count (Effect.readRemoteRaster tifUrl) = 1
  ∧ notebookEffects.count (Effect.readRemoteVector vecUrl) = 1
  ∧ notebookEffects.count (Effect.writeLocalRaster "output_raster.tif") = 1
  ∧ Effect.render ∈ notebookEffects
  ∧ notebookEffects.all (fun e =>
      e == Effect.readRemoteRaster tifUrl
        || e == Effect.readRemoteVector vecUrl
        || e == Effect.writeLocalRaster "output_raster.tif"
        || e == Effect.render) = true := by decide

/-- C4: each geospatial operation of the notebook (loading, reprojecting,
the two clippings, resampling, exporting) is one single direct call into
an external library method path whose arguments are call-free
(variables, literals and attribute accesses), and the notebook defines no
function of its own, so no repository-owned orchestration sits between a
call and its result. -/
theorem c4_single_direct_library_calls :
    (rhsOf notebook "data").map isDirectLibCall = some true
  ∧ (rhsOf notebook "data_reprojected").map isDirectLibCall = some true
  ∧ (rhsOf notebook "clipped_data").map isDirectLibCall = some true
  ∧ (rhsOf notebook "clipped_data2").map isDirectLibCall = some true
  ∧ (rhsOf notebook "resampled_data").map isDirectLibCall = some true
  ∧ exprS (call1 (attr (attr (var "data") "rio") "to_raster")
      (strLit "output_raster.tif")) ∈ notebook
  ∧ isDirectLibCall (call1 (attr (attr (var "data") "rio") "to_raster")
      (strLit "output_raster.tif")) = true
  ∧ notebook.all isStraightLine = true := by decide

/-- C5: the notebook phases occur in the stated linear order: the single
load statement precedes every metadata-inspection statement of the loaded
raster, these precede every reproject/clip/resample statement, which
precede every visualization statement, which precede the export statement;
in particular every transform follows the load and the export follows
every visualization.  Each phase is non-empty. -/
theorem c5_linear_phase_order :
    idxWhere isLoadStmt notebook ≠ []
  ∧ idxWhere isInspectStmt notebook ≠ []
  ∧ idxWhere isTransformStmt notebook ≠ []
  ∧ idxWhere isVisualizeStmt notebook ≠ []
  ∧ idxWhere isExportStmt notebook ≠ []
  ∧ allBefore (idxWhere isLoadStmt notebook) (idxWhere isInspectStmt notebook) = true
  ∧ allBefore (idxWhere isInspectStmt notebook) (idxWhere isTransformStmt notebook) = true
  ∧ allBefore (idxWhere isTransformStmt notebook) (idxWhere isVisualizeStmt notebook) = true
  ∧ allBefore (idxWhere isVisualizeStmt notebook) (idxWhere isExportStmt notebook) = true
  ∧ allBefore (idxWhere isLoadStmt notebook) (idxWhere isTransformStmt notebook) = true
  ∧ allBefore (idxWhere isVisualizeStmt notebook) (idxWhere isExportStmt notebook) = true := by
  decide

/-- C6: the notebook performs each of the seven taught operations at least
once: loading, inspecting (dimensions, coordinates, attributes, CRS and
transform), reprojecting, clipping, resampling, visualizing and
exporting. -/
theorem c6_seven_operations_present :
    notebook.any isLoadStmt = true
  ∧ inspectStmts.all (fun s => notebook.contains s) = true
  ∧ notebook.any (stmtAnyExpr isReprojectCall) = true
  ∧ notebook.any (stmtAnyExpr isClipCall) = true
  ∧ notebook.any (stmtAnyExpr isResampleCall) = true
  ∧ notebook.any isVisualizeStmt = true
  ∧ notebook.any isExportStmt = true := by decide

/-- C7: the notebook introduces no concurrency: it imports no
thread/process/async module, calls no thread-, process- or task-creating
or scheduling entry point, contains no `async def`, consists only of
straight-line statements, and its execution semantics is a deterministic
sequential step function. -/
theorem c7_no_concurrency :
    concurrencyModules.all (fun m => !(importedModules notebook).contains m) = true
  ∧ concurrencyCallNames.all
      (fun n => !(notebook.flatMap stmtCallHeads).contains n) = true
  ∧ notebook.all (fun s => !(usesAsync s)) = true
  ∧ notebook.all isStraightLine = true
  ∧ ∀ (env : Env) (s : Stmt) (rest : List Stmt),
      run env (s :: rest) = run (step env s) rest :=
  ⟨by decide, by decide, by decide, by decide, fun _ _ _ => rfl⟩

/-- C8: the resampling statement of the notebook passes the dataset's own
CRS (`data.rio.crs`) as reprojection target together with resolution
(1000, 1000), and reprojecting any dataset to its own CRS at resolution
(1000, 1000) yields a dataset with the same CRS and the new grid
resolution. -/
theorem c8_resampling_preserves_crs :
    rhsOf notebook "resampled_data"
        = some (call2 (attr (attr (var "data") "rio") "reproject")
            (attr (attr (var "data") "rio") "crs")
            (kw "resolution" (pair (numLit 1000) (numLit 1000))))
  ∧ ∀ (d : RioDataset) (c : String), d.crs = some c →
      rioReproject d c (some (1000, 1000))
        = some { crs := d.crs, resolution := (1000, 1000) } := by
  refine ⟨by decide, ?_⟩
  intro d c hc
  simp [rioReproject, hc]

/-- Witness for C8: resampling a dataset in EPSG:32611 at 90 m to
resolution (1000, 1000) keeps EPSG:32611. -/
theorem c8_resampling_preserves_crs_witness :
    rioReproject ⟨some "EPSG:32611", (90, 90)⟩ "EPSG:32611" (some (1000, 1000))
      = some ⟨some "EPSG:32611", (1000, 1000)⟩ :=
  c8_resampling_preserves_crs.2 ⟨some "EPSG:32611", (90, 90)⟩ "EPSG:32611" rfl

/-- C9: the notebook reprojects `data` with target EPSG:4326, and for
every dataset with a valid source CRS the reprojection succeeds and the
result carries exactly the requested target CRS. -/
theorem c9_reprojection_sets_target_crs :
    rhsOf notebook "data_reprojected"
        = some (call1 (attr (attr (var "data") "rio") "reproject")
            (strLit "EPSG:4326"))
  ∧ ∀ d : RioDataset, d.crs ≠ none →
      ∃ r, rioReproject d "EPSG:4326" none = some r
        ∧ r.crs = some "EPSG:4326" := by
  refine ⟨by decide, ?_⟩
  intro d hd
  cases hc : d.crs with
  | none => exact absurd hc hd
  | some c =>
      exact ⟨{ crs := some "EPSG:4326", resolution := d.resolution },
        by simp [rioReproject, hc], rfl⟩

/-- Witness for C9: reprojecting a UTM zone 11 dataset to EPSG:4326
yields a dataset carrying EPSG:4326. -/
theorem c9_reprojection_sets_target_crs_witness :
    ∃ r, rioReproject ⟨some "EPSG:32611", (90, 90)⟩ "EPSG:4326" none = some r
      ∧ r.crs = some "EPSG:4326" :=
  c9_reprojection_sets_target_crs.2 ⟨some "EPSG:32611", (90, 90)⟩ (by decide)

/-- The value of the notebook literal `min_y = 35.982`, written in a
kernel-reducible normal form. -/
def minYQ : ℚ := mkRat 35982 1000

/-- The value of the notebook literal `max_y = 36.425`, written in a
kernel-reducible normal form. -/
def maxYQ : ℚ := mkRat 36425 1000

set_option maxRecDepth 8192 in
/-- C10: the subset statement slices y as `slice(max_y, min_y)` with
`min_y` = 35.982 and `max_y` = 36.425, that is, bounds in descending
order; on every strictly decreasing y coordinate this selection returns
exactly the labels y with 35.982 ≤ y ≤ 36.425 (non-empty whenever some
label lies in that range), whereas `slice(min_y, max_y)` would select
nothing. -/
theorem c10_descending_y_slice_selects_range :
    (rhsOf notebook "min_y" = some (numLit 35.982)
      ∧ rhsOf notebook "max_y" = some (numLit 36.425)
      ∧ (35.982 : ℚ) = minYQ
      ∧ (36.425 : ℚ) = maxYQ
      ∧ rhsOf notebook "subset"
          = some (call2 (attr (var "data_reprojected") "sel")
              (kw "x" (sliceE (var "min_x") (var "max_x")))
              (kw "y" (sliceE (var "max_y") (var "min_y")))))
  ∧ ∀ ys : List ℚ, ys.Pairwise (· > ·) →
      selSliceDesc ys maxYQ minYQ
          = ys.filter (fun y => decide (minYQ ≤ y) && decide (y ≤ maxYQ))
      ∧ selSliceDesc ys minYQ maxYQ = []
      ∧ ((∃ y ∈ ys, minYQ ≤ y ∧ y ≤ maxYQ) →
          selSliceDesc ys maxYQ minYQ ≠ []) := by
  refine ⟨⟨rfl, rfl, by norm_num [minYQ, Rat.mkRat_eq_div],
    by norm_num [maxYQ, Rat.mkRat_eq_div], rfl⟩, ?_⟩
  intro ys h
  refine ⟨selSliceDesc_eq_filter _ _ ys h,
    selSliceDesc_reversed_empty _ _ (by decide) ys h, ?_⟩
  rintro ⟨y, hymem, h1, h2⟩
  rw [selSliceDesc_eq_filter _ _ ys h]
  exact List.ne_nil_of_mem (List.mem_filter.mpr ⟨hymem, by simp [h1, h2]⟩)

/-- Witness for C10: on the strictly decreasing coordinate [40, 36, 30],
the descending slice selects exactly the labels within the bounds, and the
ascending slice selects nothing. -/
theorem c10_descending_y_slice_selects_range_witness :
    selSliceDesc [40, 36, 30] maxYQ minYQ
        = List.filter (fun y => decide (minYQ ≤ y) && decide (y ≤ maxYQ))
            [40, 36, 30]
  ∧ selSliceDesc [40, 36, 30] minYQ maxYQ = []
  ∧ selSliceDesc [40, 36, 30] maxYQ minYQ ≠ [] := by
  have h := c10_descending_y_slice_selects_range.2 [40, 36, 30] (by decide)
  exact ⟨h.1, h.2.1, h.2.2 (by decide)⟩

end Geog312
